import Mathlib

/-!
Shallow embedding of the pebble in-memory store (`src/db/memorystore.go`).

Go maps `map[string]*T` become association lists `List (String × T)`;
the store's pointer-typed entities become plain records, and mutation
through a stored pointer becomes an explicit store update.  The injected
clock is the current reading as a `Nat`; the order status-computation
collaborator is a parameter `Order → Nat → Except String String`,
matching the spec's description of it as a pure injected function.
Fatal aborts (`panic`) in `GetOrderByID` become an explicit result
constructor.
-/

namespace MemStore

/-- Lookup in a Go `map[string]*T`, modelled as first match in an
association list; `none` is Go's nil / comma-ok miss. -/
def mapLookup {α : Type} : List (String × α) → String → Option α
  | [], _ => none
  | (k, v) :: rest, key => if k = key then some v else mapLookup rest key

/-- Go `m[k] = v` for a key known to be absent (the only way the store
inserts): the new binding is appended. -/
def mapInsert {α : Type} (l : List (String × α)) (k : String) (v : α) :
    List (String × α) :=
  l ++ [(k, v)]

/-- Go `m[k] = v` for a key that may be present: every binding of `k`
is replaced by `v`. -/
def mapUpdate {α : Type} (l : List (String × α)) (k : String) (v : α) :
    List (String × α) :=
  l.map fun p => if p.1 = k then (k, v) else p

/-- Go `delete(m, k)`: every binding of `k` is removed. -/
def mapDelete {α : Type} (l : List (String × α)) (k : String) :
    List (String × α) :=
  l.filter fun p => p.1 ≠ k

/-- Modelled from the spec: `core.Account` (not under `src/`).  Identified
by a string ID, carries a nullable public key, and otherwise opaque caller
data (here a contact list). -/
structure Account where
  id : String
  key : Option String
  contact : List String
deriving DecidableEq

/-- Modelled from the spec: `core.Order` (not under `src/`).  Identified by
a string ID, owns authorization references and an expiry, and carries a
derived `status` field recomputed on read. -/
structure Order where
  id : String
  expires : Nat
  authorizationIDs : List String
  status : String
deriving DecidableEq

/-- Modelled from the spec: `core.Authorization` (not under `src/`).
Identified by a string ID, references challenges. -/
structure Authorization where
  id : String
  challengeIDs : List String
deriving DecidableEq

/-- Modelled from the spec: `core.Challenge` (not under `src/`).
Identified by a string ID, one verification attempt. -/
structure Challenge where
  id : String
  token : String
deriving DecidableEq

/-- Modelled from the spec: `core.Certificate` (not under `src/`).
Identified by a string ID, carries raw DER bytes as content identity. -/
structure Certificate where
  id : String
  der : List Nat
deriving DecidableEq

/-- The error taxonomy of the store's mutating operations (spec §4.1).
Each constructor carries the Go error's message or offending ID. -/
inductive StoreError where
  | emptyIdentifier (msg : String)
  | missingRequiredField (msg : String)
  | alreadyExists (id : String)
  | notFound (id : String)
deriving DecidableEq

/-- `MemoryStore`: the five identifier-keyed collections plus the injected
clock's current reading (`clk`). -/
structure MemoryStore where
  clk : Nat
  accountsByID : List (String × Account)
  ordersByID : List (String × Order)
  authorizationsByID : List (String × Authorization)
  challengesByID : List (String × Challenge)
  certificatesByID : List (String × Certificate)
deriving DecidableEq

/-- `NewMemoryStore`: all five collections empty. -/
def newMemoryStore (clk : Nat) : MemoryStore :=
  ⟨clk, [], [], [], [], []⟩

/-- `GetAccountByID`. -/
def getAccountByID (m : MemoryStore) (id : String) : Option Account :=
  mapLookup m.accountsByID id

/-- `UpdateAccountByID`: fails when no account is stored under `id`,
otherwise replaces the stored value wholesale. -/
def updateAccountByID (m : MemoryStore) (id : String) (acct : Account) :
    Option StoreError × MemoryStore :=
  match mapLookup m.accountsByID id with
  | none => (some (StoreError.notFound id), m)
  | some _ => (none, { m with accountsByID := mapUpdate m.accountsByID id acct })

/-- `AddAccount`: rejects an empty ID, then a nil key, then a duplicate
ID; otherwise inserts and returns the new collection size. -/
def addAccount (m : MemoryStore) (acct : Account) :
    Nat × Option StoreError × MemoryStore :=
  if acct.id = "" then
    (0, some (StoreError.emptyIdentifier
      "account must have a non-empty ID to add to MemoryStore"), m)
  else if acct.key = none then
    (0, some (StoreError.missingRequiredField
      "account must not have a nil Key"), m)
  else if (mapLookup m.accountsByID acct.id).isSome then
    (0, some (StoreError.alreadyExists acct.id), m)
  else
    let l := mapInsert m.accountsByID acct.id acct
    (l.length, none, { m with accountsByID := l })

/-- `AddOrder`. -/
def addOrder (m : MemoryStore) (order : Order) :
    Nat × Option StoreError × MemoryStore :=
  if order.id = "" then
    (0, some (StoreError.emptyIdentifier
      "order must have a non-empty ID to add to MemoryStore"), m)
  else if (mapLookup m.ordersByID order.id).isSome then
    (0, some (StoreError.alreadyExists order.id), m)
  else
    let l := mapInsert m.ordersByID order.id order
    (l.length, none, { m with ordersByID := l })

/-- The result of `GetOrderByID`: absent (Go nil), the returned order
together with the store after the status write-back, or a fatal abort
(Go panic) carrying the status-computation error. -/
inductive GetOrderResult where
  | absent
  | found (o : Order) (m : MemoryStore)
  | fatal (e : String)
deriving DecidableEq

/-- `GetOrderByID`: looks the order up, recomputes its status with the
injected status-computation function `f` at the clock's current reading,
aborts fatally if that fails, otherwise persists the recomputed status
into the stored order and returns it. -/
def getOrderByID (f : Order → Nat → Except String String)
    (m : MemoryStore) (id : String) : GetOrderResult :=
  match mapLookup m.ordersByID id with
  | some order =>
      match f order m.clk with
      | Except.error e => GetOrderResult.fatal e
      | Except.ok st =>
          GetOrderResult.found { order with status := st }
            { m with ordersByID :=
                mapUpdate m.ordersByID id { order with status := st } }
  | none => GetOrderResult.absent

/-- `AddAuthorization`. -/
def addAuthorization (m : MemoryStore) (authz : Authorization) :
    Nat × Option StoreError × MemoryStore :=
  if authz.id = "" then
    (0, some (StoreError.emptyIdentifier
      "authz must have a non-empty ID to add to MemoryStore"), m)
  else if (mapLookup m.authorizationsByID authz.id).isSome then
    (0, some (StoreError.alreadyExists authz.id), m)
  else
    let l := mapInsert m.authorizationsByID authz.id authz
    (l.length, none, { m with authorizationsByID := l })

/-- `GetAuthorizationByID`. -/
def getAuthorizationByID (m : MemoryStore) (id : String) :
    Option Authorization :=
  mapLookup m.authorizationsByID id

/-- `AddChallenge`. -/
def addChallenge (m : MemoryStore) (chal : Challenge) :
    Nat × Option StoreError × MemoryStore :=
  if chal.id = "" then
    (0, some (StoreError.emptyIdentifier
      "challenge must have a non-empty ID to add to MemoryStore"), m)
  else if (mapLookup m.challengesByID chal.id).isSome then
    (0, some (StoreError.alreadyExists chal.id), m)
  else
    let l := mapInsert m.challengesByID chal.id chal
    (l.length, none, { m with challengesByID := l })

/-- `GetChallengeByID`. -/
def getChallengeByID (m : MemoryStore) (id : String) : Option Challenge :=
  mapLookup m.challengesByID id

/-- `AddCertificate`. -/
def addCertificate (m : MemoryStore) (cert : Certificate) :
    Nat × Option StoreError × MemoryStore :=
  if cert.id = "" then
    (0, some (StoreError.emptyIdentifier
      "cert must have a non-empty ID to add to MemoryStore"), m)
  else if (mapLookup m.certificatesByID cert.id).isSome then
    (0, some (StoreError.alreadyExists cert.id), m)
  else
    let l := mapInsert m.certificatesByID cert.id cert
    (l.length, none, { m with certificatesByID := l })

/-- `GetCertificateByID`. -/
def getCertificateByID (m : MemoryStore) (id : String) : Option Certificate :=
  mapLookup m.certificatesByID id

/-- The linear scan inside `GetCertificateByDER`: first stored certificate
whose DER bytes equal `der` (byte-slice equality standing in for
`reflect.DeepEqual` on the byte slices). -/
def findByDER : List (String × Certificate) → List Nat → Option Certificate
  | [], _ => none
  | (_, c) :: rest, der => if c.der = der then some c else findByDER rest der

/-- `GetCertificateByDER`: linear scan over all stored certificates. -/
def getCertificateByDER (m : MemoryStore) (der : List Nat) :
    Option Certificate :=
  findByDER m.certificatesByID der

/-- `RevokeCertificate`: unconditionally deletes the entry keyed by the
certificate's ID; no error is ever reported. -/
def revokeCertificate (m : MemoryStore) (cert : Certificate) : MemoryStore :=
  { m with certificatesByID := mapDelete m.certificatesByID cert.id }

/-! ### Association-list lemmas -/

theorem mapInsert_length {α : Type} (l : List (String × α)) (k : String) (v : α) :
    (mapInsert l k v).length = l.length + 1 := by
  simp [mapInsert]

theorem mapLookup_insert {α : Type} {l : List (String × α)} {k : String} (v : α)
    (h : mapLookup l k = none) : mapLookup (mapInsert l k v) k = some v := by
  induction l with
  | nil => simp [mapInsert, mapLookup]
  | cons p rest ih =>
      obtain ⟨k', v'⟩ := p
      by_cases hk : k' = k
      · simp [mapLookup, hk] at h
      · simp only [mapLookup, mapInsert, List.cons_append, if_neg hk] at h ⊢
        exact ih h

theorem mapLookup_update_self {α : Type} {l : List (String × α)} {k : String}
    {a : α} (h : mapLookup l k = some a) (v : α) :
    mapLookup (mapUpdate l k v) k = some v := by
  induction l with
  | nil => simp [mapLookup] at h
  | cons p rest ih =>
      obtain ⟨k', v'⟩ := p
      simp only [mapUpdate, List.map_cons]
      by_cases hk : k' = k
      · subst hk
        have hhd : (if ((k', v') : String × α).1 = k' then (k', v) else (k', v')) =
            (k', v) := if_pos rfl
        rw [hhd]
        simp [mapLookup]
      · have h' : mapLookup rest k = some a := by
          simpa only [mapLookup, if_neg hk] using h
        have hhd : (if ((k', v') : String × α).1 = k then (k, v) else (k', v')) =
            (k', v') := by
          simp [hk]
        rw [hhd]
        simpa only [mapLookup, if_neg hk, mapUpdate] using ih h'

theorem mapLookup_delete {α : Type} (l : List (String × α)) (k : String) :
    mapLookup (mapDelete l k) k = none := by
  induction l with
  | nil => rfl
  | cons p rest ih =>
      by_cases hk : p.1 = k
      · simpa [mapDelete, List.filter_cons, hk] using ih
      · simpa [mapDelete, List.filter_cons, hk, mapLookup] using ih

theorem mapDelete_idem {α : Type} (l : List (String × α)) (k : String) :
    mapDelete (mapDelete l k) k = mapDelete l k := by
  induction l with
  | nil => rfl
  | cons p rest ih =>
      by_cases hk : p.1 = k
      · simp [mapDelete, List.filter_cons, hk, ih]
      · simp [mapDelete, List.filter_cons, hk, ih]

/-! ### Characterizations of the Add operations -/

theorem addAccount_ok {m : MemoryStore} {a : Account} {n : Nat} {m' : MemoryStore}
    (h : addAccount m a = (n, none, m')) :
    a.id ≠ "" ∧ a.key ≠ none ∧ mapLookup m.accountsByID a.id = none ∧
    n = m.accountsByID.length + 1 ∧
    m' = { m with accountsByID := mapInsert m.accountsByID a.id a } := by
  simp only [addAccount] at h
  split at h
  · simp at h
  · split at h
    · simp at h
    · split at h
      · simp at h
      · next h1 h2 h3 =>
          simp only [Prod.mk.injEq] at h
          exact ⟨h1, h2, Option.not_isSome_iff_eq_none.mp h3,
            by rw [← h.1, mapInsert_length], h.2.2.symm⟩

theorem addAccount_err {m : MemoryStore} {a : Account} {n : Nat} {e : StoreError}
    {m' : MemoryStore} (h : addAccount m a = (n, some e, m')) :
    n = 0 ∧ m' = m := by
  simp only [addAccount] at h
  split at h
  · simp only [Prod.mk.injEq] at h; exact ⟨h.1.symm, h.2.2.symm⟩
  · split at h
    · simp only [Prod.mk.injEq] at h; exact ⟨h.1.symm, h.2.2.symm⟩
    · split at h
      · simp only [Prod.mk.injEq] at h; exact ⟨h.1.symm, h.2.2.symm⟩
      · simp at h

theorem addOrder_ok {m : MemoryStore} {o : Order} {n : Nat} {m' : MemoryStore}
    (h : addOrder m o = (n, none, m')) :
    o.id ≠ "" ∧ mapLookup m.ordersByID o.id = none ∧
    n = m.ordersByID.length + 1 ∧
    m' = { m with ordersByID := mapInsert m.ordersByID o.id o } := by
  simp only [addOrder] at h
  split at h
  · simp at h
  · split at h
    · simp at h
    · next h1 h2 =>
        simp only [Prod.mk.injEq] at h
        exact ⟨h1, Option.not_isSome_iff_eq_none.mp h2,
          by rw [← h.1, mapInsert_length], h.2.2.symm⟩

theorem addOrder_err {m : MemoryStore} {o : Order} {n : Nat} {e : StoreError}
    {m' : MemoryStore} (h : addOrder m o = (n, some e, m')) :
    n = 0 ∧ m' = m := by
  simp only [addOrder] at h
  split at h
  · simp only [Prod.mk.injEq] at h; exact ⟨h.1.symm, h.2.2.symm⟩
  · split at h
    · simp only [Prod.mk.injEq] at h; exact ⟨h.1.symm, h.2.2.symm⟩
    · simp at h

theorem addAuthorization_ok {m : MemoryStore} {z : Authorization} {n : Nat}
    {m' : MemoryStore} (h : addAuthorization m z = (n, none, m')) :
    z.id ≠ "" ∧ mapLookup m.authorizationsByID z.id = none ∧
    n = m.authorizationsByID.length + 1 ∧
    m' = { m with authorizationsByID := mapInsert m.authorizationsByID z.id z } := by
  simp only [addAuthorization] at h
  split at h
  · simp at h
  · split at h
    · simp at h
    · next h1 h2 =>
        simp only [Prod.mk.injEq] at h
        exact ⟨h1, Option.not_isSome_iff_eq_none.mp h2,
          by rw [← h.1, mapInsert_length], h.2.2.symm⟩

theorem addAuthorization_err {m : MemoryStore} {z : Authorization} {n : Nat}
    {e : StoreError} {m' : MemoryStore}
    (h : addAuthorization m z = (n, some e, m')) : n = 0 ∧ m' = m := by
  simp only [addAuthorization] at h
  split at h
  · simp only [Prod.mk.injEq] at h; exact ⟨h.1.symm, h.2.2.symm⟩
  · split at h
    · simp only [Prod.mk.injEq] at h; exact ⟨h.1.symm, h.2.2.symm⟩
    · simp at h

theorem addChallenge_ok {m : MemoryStore} {c : Challenge} {n : Nat}
    {m' : MemoryStore} (h : addChallenge m c = (n, none, m')) :
    c.id ≠ "" ∧ mapLookup m.challengesByID c.id = none ∧
    n = m.challengesByID.length + 1 ∧
    m' = { m with challengesByID := mapInsert m.challengesByID c.id c } := by
  simp only [addChallenge] at h
  split at h
  · simp at h
  · split at h
    · simp at h
    · next h1 h2 =>
        simp only [Prod.mk.injEq] at h
        exact ⟨h1, Option.not_isSome_iff_eq_none.mp h2,
          by rw [← h.1, mapInsert_length], h.2.2.symm⟩

theorem addChallenge_err {m : MemoryStore} {c : Challenge} {n : Nat}
    {e : StoreError} {m' : MemoryStore}
    (h : addChallenge m c = (n, some e, m')) : n = 0 ∧ m' = m := by
  simp only [addChallenge] at h
  split at h
  · simp only [Prod.mk.injEq] at h; exact ⟨h.1.symm, h.2.2.symm⟩
  · split at h
    · simp only [Prod.mk.injEq] at h; exact ⟨h.1.symm, h.2.2.symm⟩
    · simp at h

theorem addCertificate_ok {m : MemoryStore} {c : Certificate} {n : Nat}
    {m' : MemoryStore} (h : addCertificate m c = (n, none, m')) :
    c.id ≠ "" ∧ mapLookup m.certificatesByID c.id = none ∧
    n = m.certificatesByID.length + 1 ∧
    m' = { m with certificatesByID := mapInsert m.certificatesByID c.id c } := by
  simp only [addCertificate] at h
  split at h
  · simp at h
  · split at h
    · simp at h
    · next h1 h2 =>
        simp only [Prod.mk.injEq] at h
        exact ⟨h1, Option.not_isSome_iff_eq_none.mp h2,
          by rw [← h.1, mapInsert_length], h.2.2.symm⟩

theorem addCertificate_err {m : MemoryStore} {c : Certificate} {n : Nat}
    {e : StoreError} {m' : MemoryStore}
    (h : addCertificate m c = (n, some e, m')) : n = 0 ∧ m' = m := by
  simp only [addCertificate] at h
  split at h
  · simp only [Prod.mk.injEq] at h; exact ⟨h.1.symm, h.2.2.symm⟩
  · split at h
    · simp only [Prod.mk.injEq] at h; exact ⟨h.1.symm, h.2.2.symm⟩
    · simp at h

theorem addAccount_succeeds {m : MemoryStore} {a : Account}
    (h1 : a.id ≠ "") (h2 : a.key ≠ none)
    (h3 : mapLookup m.accountsByID a.id = none) :
    addAccount m a = (m.accountsByID.length + 1, none,
      { m with accountsByID := mapInsert m.accountsByID a.id a }) := by
  simp [addAccount, h1, h2, h3, mapInsert_length]

theorem addOrder_succeeds {m : MemoryStore} {o : Order}
    (h1 : o.id ≠ "") (h2 : mapLookup m.ordersByID o.id = none) :
    addOrder m o = (m.ordersByID.length + 1, none,
      { m with ordersByID := mapInsert m.ordersByID o.id o }) := by
  simp [addOrder, h1, h2, mapInsert_length]

theorem addAuthorization_succeeds {m : MemoryStore} {z : Authorization}
    (h1 : z.id ≠ "") (h2 : mapLookup m.authorizationsByID z.id = none) :
    addAuthorization m z = (m.authorizationsByID.length + 1, none,
      { m with authorizationsByID := mapInsert m.authorizationsByID z.id z }) := by
  simp [addAuthorization, h1, h2, mapInsert_length]

theorem addChallenge_succeeds {m : MemoryStore} {c : Challenge}
    (h1 : c.id ≠ "") (h2 : mapLookup m.challengesByID c.id = none) :
    addChallenge m c = (m.challengesByID.length + 1, none,
      { m with challengesByID := mapInsert m.challengesByID c.id c }) := by
  simp [addChallenge, h1, h2, mapInsert_length]

theorem addCertificate_succeeds {m : MemoryStore} {c : Certificate}
    (h1 : c.id ≠ "") (h2 : mapLookup m.certificatesByID c.id = none) :
    addCertificate m c = (m.certificatesByID.length + 1, none,
      { m with certificatesByID := mapInsert m.certificatesByID c.id c }) := by
  simp [addCertificate, h1, h2, mapInsert_length]

/-! ### Lemmas about the DER linear scan -/

theorem findByDER_mem {l : List (String × Certificate)} {der : List Nat}
    {c : Certificate} (h : findByDER l der = some c) :
    c.der = der ∧ ∃ p, p ∈ l ∧ p.2 = c := by
  induction l with
  | nil => simp [findByDER] at h
  | cons p rest ih =>
      obtain ⟨k, cert⟩ := p
      by_cases hd : cert.der = der
      · simp only [findByDER, if_pos hd, Option.some.injEq] at h
        subst h
        exact ⟨hd, ⟨(k, cert), by simp⟩⟩
      · simp only [findByDER, if_neg hd] at h
        obtain ⟨hc, p', hp', hpc⟩ := ih h
        exact ⟨hc, p', List.mem_cons_of_mem _ hp', hpc⟩

theorem findByDER_none_iff {l : List (String × Certificate)} {der : List Nat} :
    findByDER l der = none ↔ ∀ p, p ∈ l → p.2.der ≠ der := by
  induction l with
  | nil => simp [findByDER]
  | cons p rest ih =>
      obtain ⟨k, cert⟩ := p
      by_cases hd : cert.der = der
      · simp [findByDER, if_pos hd, hd]
      · simp [findByDER, if_neg hd, ih, hd]

/-! ### Concrete fixtures used by the witnesses and counterexamples -/

def m0 : MemoryStore := newMemoryStore 0

def acctA : Account := ⟨"a1", some "pubkey1", ["mail"]⟩

def acctB : Account := ⟨"a1", some "pubkey2", ["other"]⟩

def mAcct : MemoryStore :=
  { m0 with accountsByID := mapInsert m0.accountsByID "a1" acctA }

def ordO : Order := ⟨"o1", 3600, ["z1"], "pending"⟩

def mOrd : MemoryStore :=
  { m0 with ordersByID := mapInsert m0.ordersByID "o1" ordO }

/-- Modelled from the spec: an example of the injected status-computation
collaborator (`core.Order.GetStatus` is not under `src/`), following the
spec's scenario — expired once the clock reaches the order's expiry,
pending before. -/
def exampleStatus (o : Order) (t : Nat) : Except String String :=
  if o.expires ≤ t then Except.ok "expired" else Except.ok "pending"

/-- Modelled from the spec: a status-computation collaborator that reports
a structurally invalid order, to exercise the fatal-abort path. -/
def failStatus : Order → Nat → Except String String :=
  fun _ _ => Except.error "invalid order"

def ordP : Order := { ordO with status := "pending" }

def mP : MemoryStore :=
  { mOrd with ordersByID := mapUpdate mOrd.ordersByID "o1" ordP }

def mP2 : MemoryStore := { mP with clk := 7200 }

def ordX : Order := { ordP with status := "expired" }

def mX : MemoryStore :=
  { mP2 with ordersByID := mapUpdate mP2.ordersByID "o1" ordX }

def certT : Certificate := ⟨"t1", [1, 2, 3]⟩

def mCert : MemoryStore :=
  { m0 with certificatesByID := mapInsert m0.certificatesByID "t1" certT }

/-! ### The claims -/

/-- Claim C1: for every order stored under `id`, `GetOrderByID id`
recomputes the order's status by applying the injected status-computation
function to the order's state and the clock's current reading, persists the
recomputed status into the stored order before returning it, and modifies
no field of the order other than its status. -/
theorem getOrderByID_recomputes_and_persists_status
    (f : Order → Nat → Except String String) (m : MemoryStore) (id : String)
    (o : Order) (s : String)
    (hlook : mapLookup m.ordersByID id = some o)
    (hstat : f o m.clk = Except.ok s) :
    getOrderByID f m id =
      GetOrderResult.found { o with status := s }
        { m with ordersByID := mapUpdate m.ordersByID id { o with status := s } } ∧
    mapLookup (mapUpdate m.ordersByID id { o with status := s }) id =
      some { o with status := s } ∧
    ({ o with status := s }).id = o.id ∧
    ({ o with status := s }).expires = o.expires ∧
    ({ o with status := s }).authorizationIDs = o.authorizationIDs ∧
    ({ o with status := s }).status = s := by
  refine ⟨?_, ?_, rfl, rfl, rfl, rfl⟩
  · simp [getOrderByID, hlook, hstat]
  · exact mapLookup_update_self hlook { o with status := s }

/-- Claim C1 witness: the spec scenario.  Insert order `o1` with expiry
3600 at clock 0: the first read returns status pending and persists it;
after advancing the clock to 7200, the second read returns status expired,
with no other field changed and no explicit update call. -/
theorem getOrderByID_clock_advance_witness :
    getOrderByID exampleStatus mOrd "o1" = GetOrderResult.found ordP mP ∧
    getOrderByID exampleStatus mP2 "o1" = GetOrderResult.found ordX mX :=
  ⟨(getOrderByID_recomputes_and_persists_status exampleStatus mOrd "o1" ordO
      "pending" (by decide) rfl).1,
   (getOrderByID_recomputes_and_persists_status exampleStatus mP2 "o1" ordP
      "expired" (by decide) rfl).1⟩

/-- Claim C4: `GetOrderByID` aborts fatally exactly when the order is
present and the status computation fails; it returns absent exactly when
the order is absent, and returns an order exactly when the order is present
and the status computation succeeds. -/
theorem getOrderByID_fatal_iff (f : Order → Nat → Except String String)
    (m : MemoryStore) (id : String) :
    ((∃ e, getOrderByID f m id = GetOrderResult.fatal e) ↔
      (∃ o e, mapLookup m.ordersByID id = some o ∧ f o m.clk = Except.error e)) ∧
    (getOrderByID f m id = GetOrderResult.absent ↔
      mapLookup m.ordersByID id = none) ∧
    ((∃ o' m', getOrderByID f m id = GetOrderResult.found o' m') ↔
      (∃ o s, mapLookup m.ordersByID id = some o ∧ f o m.clk = Except.ok s)) := by
  cases hl : mapLookup m.ordersByID id with
  | none => simp [getOrderByID, hl]
  | some o =>
      cases hs : f o m.clk with
      | error e => simp [getOrderByID, hl, hs]
      | ok st => simp [getOrderByID, hl, hs]

/-- Claim C4 witness: with a status computation that reports an invalid
order, reading the stored order `o1` aborts fatally. -/
theorem getOrderByID_fatal_witness :
    ∃ e, getOrderByID failStatus mOrd "o1" = GetOrderResult.fatal e :=
  (getOrderByID_fatal_iff failStatus mOrd "o1").1.mpr
    ⟨ordO, "invalid order", by decide, rfl⟩

/-- Claim C5: `GetCertificateByDER der` returns a stored certificate whose
content is byte-for-byte equal to `der` whenever some stored certificate
has exactly those content bytes, and returns absent whenever no stored
certificate does. -/
theorem getCertificateByDER_spec (m : MemoryStore) (der : List Nat) :
    ((∃ p, p ∈ m.certificatesByID ∧ p.2.der = der) →
      ∃ c, getCertificateByDER m der = some c ∧ c.der = der ∧
        ∃ p, p ∈ m.certificatesByID ∧ p.2 = c) ∧
    ((∀ p, p ∈ m.certificatesByID → p.2.der ≠ der) →
      getCertificateByDER m der = none) := by
  constructor
  · rintro ⟨p, hp, hd⟩
    cases hf : findByDER m.certificatesByID der with
    | none => exact absurd hd (findByDER_none_iff.mp hf p hp)
    | some c =>
        obtain ⟨h1, h2⟩ := findByDER_mem hf
        exact ⟨c, hf, h1, h2⟩
  · intro h
    exact findByDER_none_iff.mpr h

/-- Claim C5 witness: with certificate `t1` carrying bytes `[1, 2, 3]`
stored, querying `[1, 2, 3]` returns a certificate with exactly those
bytes, and querying the overlapping sequence `[1, 2]` returns absent. -/
theorem getCertificateByDER_witness :
    (∃ c, getCertificateByDER mCert [1, 2, 3] = some c ∧ c.der = [1, 2, 3] ∧
      ∃ p, p ∈ mCert.certificatesByID ∧ p.2 = c) ∧
    getCertificateByDER mCert [1, 2] = none :=
  ⟨(getCertificateByDER_spec mCert [1, 2, 3]).1 ⟨("t1", certT), by decide, by decide⟩,
   (getCertificateByDER_spec mCert [1, 2]).2 (by decide)⟩

/-- Claim C6: `UpdateAccountByID id acct` fails with a not-found error and
performs no mutation when no account is stored under `id`; when one is, it
succeeds and replaces the stored value wholesale, so a subsequent
`GetAccountByID id` returns `acct`. -/
theorem updateAccountByID_spec (m : MemoryStore) (id : String) (acct : Account) :
    (mapLookup m.accountsByID id = none →
      updateAccountByID m id acct = (some (StoreError.notFound id), m)) ∧
    (∀ a, mapLookup m.accountsByID id = some a →
      updateAccountByID m id acct =
        (none, { m with accountsByID := mapUpdate m.accountsByID id acct }) ∧
      getAccountByID { m with accountsByID := mapUpdate m.accountsByID id acct }
        id = some acct) := by
  constructor
  · intro h
    simp [updateAccountByID, h]
  · intro a h
    refine ⟨by simp [updateAccountByID, h], ?_⟩
    exact mapLookup_update_self h acct

/-- Claim C6 witness: updating account `a1` in the empty store fails with
the not-found error and leaves the store unchanged; updating it after it
was added succeeds and replaces the stored value. -/
theorem updateAccountByID_witness :
    updateAccountByID m0 "a1" acctA = (some (StoreError.notFound "a1"), m0) ∧
    updateAccountByID mAcct "a1" acctB =
      (none, { mAcct with accountsByID := mapUpdate mAcct.accountsByID "a1" acctB }) ∧
    getAccountByID { mAcct with
        accountsByID := mapUpdate mAcct.accountsByID "a1" acctB } "a1" = some acctB :=
  ⟨(updateAccountByID_spec m0 "a1" acctA).1 (by decide),
   ((updateAccountByID_spec mAcct "a1" acctB).2 acctA (by decide)).1,
   ((updateAccountByID_spec mAcct "a1" acctB).2 acctA (by decide)).2⟩

/-- Claim C7: `RevokeCertificate cert` unconditionally deletes the entry
keyed by the certificate's ID and reports no error (its result type has no
error component): afterwards no certificate is stored under that ID, and
revoking a second time changes nothing (idempotence). -/
theorem revokeCertificate_idempotent (m : MemoryStore) (cert : Certificate) :
    getCertificateByID (revokeCertificate m cert) cert.id = none ∧
    revokeCertificate (revokeCertificate m cert) cert = revokeCertificate m cert := by
  constructor
  · exact mapLookup_delete m.certificatesByID cert.id
  · simp [revokeCertificate, mapDelete_idem]

/-- Claim C7 witness: revoking stored certificate `t1` removes it, also
when revoked twice, and revoking it in the empty store (never added)
leaves no certificate under its ID. -/
theorem revokeCertificate_witness :
    getCertificateByID (revokeCertificate mCert certT) certT.id = none ∧
    revokeCertificate (revokeCertificate mCert certT) certT =
      revokeCertificate mCert certT ∧
    getCertificateByID (revokeCertificate m0 certT) certT.id = none :=
  ⟨(revokeCertificate_idempotent mCert certT).1,
   (revokeCertificate_idempotent mCert certT).2,
   (revokeCertificate_idempotent m0 certT).1⟩

def authZ : Authorization := ⟨"z1", ["c1"]⟩

def chalC : Challenge := ⟨"c1", "token1"⟩

def certU : Certificate := ⟨"t2", [9]⟩

def mCert2 : MemoryStore :=
  { mCert with certificatesByID := mapInsert mCert.certificatesByID "t2" certU }

def acctDup : Account := ⟨"a1", none, []⟩

def acctA2 : Account := ⟨"a1", some "pubkey3", []⟩

def acctEmptyID : Account := ⟨"", some "k", []⟩

def ordEmptyID : Order := ⟨"", 0, [], "pending"⟩

def authzEmptyID : Authorization := ⟨"", []⟩

def chalEmptyID : Challenge := ⟨"", "token2"⟩

def certEmptyID : Certificate := ⟨"", []⟩

def acctNoKey : Account := ⟨"a2", none, []⟩

/-- Claim C2: for every entity kind and every entity with a non-empty ID
(and, for accounts, a non-nil key) whose ID is not already present, Add
succeeds and a subsequent lookup of that ID returns the entity just added.
For orders the stored entity is the one just added, and reading it back
through `GetOrderByID` returns it with only its derived status recomputed. -/
theorem add_then_get_roundtrip (m : MemoryStore) (a : Account) (o : Order)
    (z : Authorization) (ch : Challenge) (ct : Certificate) :
    (a.id ≠ "" → a.key ≠ none → mapLookup m.accountsByID a.id = none →
      (addAccount m a).2.1 = none ∧
      getAccountByID (addAccount m a).2.2 a.id = some a) ∧
    (o.id ≠ "" → mapLookup m.ordersByID o.id = none →
      (addOrder m o).2.1 = none ∧
      mapLookup (addOrder m o).2.2.ordersByID o.id = some o ∧
      (∀ f s, f o m.clk = Except.ok s →
        ∃ o' m'', getOrderByID f (addOrder m o).2.2 o.id =
          GetOrderResult.found o' m'' ∧ o'.id = o.id ∧ o'.expires = o.expires ∧
          o'.authorizationIDs = o.authorizationIDs ∧ o'.status = s)) ∧
    (z.id ≠ "" → mapLookup m.authorizationsByID z.id = none →
      (addAuthorization m z).2.1 = none ∧
      getAuthorizationByID (addAuthorization m z).2.2 z.id = some z) ∧
    (ch.id ≠ "" → mapLookup m.challengesByID ch.id = none →
      (addChallenge m ch).2.1 = none ∧
      getChallengeByID (addChallenge m ch).2.2 ch.id = some ch) ∧
    (ct.id ≠ "" → mapLookup m.certificatesByID ct.id = none →
      (addCertificate m ct).2.1 = none ∧
      getCertificateByID (addCertificate m ct).2.2 ct.id = some ct) := by
  refine ⟨?_, ?_, ?_, ?_, ?_⟩
  · intro h1 h2 h3
    rw [addAccount_succeeds h1 h2 h3]
    exact ⟨rfl, mapLookup_insert a h3⟩
  · intro h1 h2
    rw [addOrder_succeeds h1 h2]
    refine ⟨rfl, mapLookup_insert o h2, ?_⟩
    intro f s hf
    simp [getOrderByID, mapLookup_insert o h2, hf]
  · intro h1 h2
    rw [addAuthorization_succeeds h1 h2]
    exact ⟨rfl, mapLookup_insert z h2⟩
  · intro h1 h2
    rw [addChallenge_succeeds h1 h2]
    exact ⟨rfl, mapLookup_insert ch h2⟩
  · intro h1 h2
    rw [addCertificate_succeeds h1 h2]
    exact ⟨rfl, mapLookup_insert ct h2⟩

/-- Claim C2 witness: adding one concrete entity of each kind to the empty
store succeeds, and looking its ID up returns exactly the entity added. -/
theorem add_then_get_roundtrip_witness :
    getAccountByID (addAccount m0 acctA).2.2 acctA.id = some acctA ∧
    mapLookup (addOrder m0 ordO).2.2.ordersByID ordO.id = some ordO ∧
    getAuthorizationByID (addAuthorization m0 authZ).2.2 authZ.id = some authZ ∧
    getChallengeByID (addChallenge m0 chalC).2.2 chalC.id = some chalC ∧
    getCertificateByID (addCertificate m0 certT).2.2 certT.id = some certT := by
  have h := add_then_get_roundtrip m0 acctA ordO authZ chalC certT
  exact ⟨(h.1 (by decide) (by decide) (by decide)).2,
         (h.2.1 (by decide) (by decide)).2.1,
         (h.2.2.1 (by decide) (by decide)).2,
         (h.2.2.2.1 (by decide) (by decide)).2,
         (h.2.2.2.2 (by decide) (by decide)).2⟩

/-- Claim C3 counterexample: after `AddAccount` stores account `a1`, a
second `AddAccount` whose account also has ID `a1` but a nil key fails
with the missing-required-field error, not the already-exists error,
because the nil-key check runs before the duplicate-ID check. -/
theorem addAccount_duplicate_nil_key_cex :
    addAccount m0 acctA = (1, none, mAcct) ∧
    acctDup.id = acctA.id ∧
    addAccount mAcct acctDup = (0, some (StoreError.missingRequiredField
      "account must not have a nil Key"), mAcct) ∧
    (addAccount mAcct acctDup).2.1 ≠ some (StoreError.alreadyExists acctDup.id) := by
  refine ⟨by decide, by decide, by decide, by decide⟩

/-- Claim C3 (amended): for every entity kind, after AddX succeeds for an
entity with ID `i`, a second AddX call with an entity whose ID is also `i`
— for accounts, one whose key is non-nil, since the nil-key check precedes
the duplicate check — fails with the already-exists error, the store is
unchanged, and the entity stored under `i` remains the one from the first
call. -/
theorem add_duplicate_id_rejected (m : MemoryStore)
    (a1 a2 : Account) (o1 o2 : Order) (z1 z2 : Authorization)
    (c1 c2 : Challenge) (t1 t2 : Certificate) :
    (∀ n m', addAccount m a1 = (n, none, m') → a2.id = a1.id → a2.key ≠ none →
      addAccount m' a2 = (0, some (StoreError.alreadyExists a1.id), m') ∧
      getAccountByID m' a1.id = some a1) ∧
    (∀ n m', addOrder m o1 = (n, none, m') → o2.id = o1.id →
      addOrder m' o2 = (0, some (StoreError.alreadyExists o1.id), m') ∧
      mapLookup m'.ordersByID o1.id = some o1) ∧
    (∀ n m', addAuthorization m z1 = (n, none, m') → z2.id = z1.id →
      addAuthorization m' z2 = (0, some (StoreError.alreadyExists z1.id), m') ∧
      getAuthorizationByID m' z1.id = some z1) ∧
    (∀ n m', addChallenge m c1 = (n, none, m') → c2.id = c1.id →
      addChallenge m' c2 = (0, some (StoreError.alreadyExists c1.id), m') ∧
      getChallengeByID m' c1.id = some c1) ∧
    (∀ n m', addCertificate m t1 = (n, none, m') → t2.id = t1.id →
      addCertificate m' t2 = (0, some (StoreError.alreadyExists t1.id), m') ∧
      getCertificateByID m' t1.id = some t1) := by
  refine ⟨?_, ?_, ?_, ?_, ?_⟩
  · intro n m' hadd hid hkey
    obtain ⟨hne, _, hnone, _, hm'⟩ := addAccount_ok hadd
    subst hm'
    have hl : mapLookup (mapInsert m.accountsByID a1.id a1) a1.id = some a1 :=
      mapLookup_insert a1 hnone
    exact ⟨by simp [addAccount, hid, hkey, hne, hl], hl⟩
  · intro n m' hadd hid
    obtain ⟨hne, hnone, _, hm'⟩ := addOrder_ok hadd
    subst hm'
    have hl : mapLookup (mapInsert m.ordersByID o1.id o1) o1.id = some o1 :=
      mapLookup_insert o1 hnone
    exact ⟨by simp [addOrder, hid, hne, hl], hl⟩
  · intro n m' hadd hid
    obtain ⟨hne, hnone, _, hm'⟩ := addAuthorization_ok hadd
    subst hm'
    have hl : mapLookup (mapInsert m.authorizationsByID z1.id z1) z1.id = some z1 :=
      mapLookup_insert z1 hnone
    exact ⟨by simp [addAuthorization, hid, hne, hl], hl⟩
  · intro n m' hadd hid
    obtain ⟨hne, hnone, _, hm'⟩ := addChallenge_ok hadd
    subst hm'
    have hl : mapLookup (mapInsert m.challengesByID c1.id c1) c1.id = some c1 :=
      mapLookup_insert c1 hnone
    exact ⟨by simp [addChallenge, hid, hne, hl], hl⟩
  · intro n m' hadd hid
    obtain ⟨hne, hnone, _, hm'⟩ := addCertificate_ok hadd
    subst hm'
    have hl : mapLookup (mapInsert m.certificatesByID t1.id t1) t1.id = some t1 :=
      mapLookup_insert t1 hnone
    exact ⟨by simp [addCertificate, hid, hne, hl], hl⟩

/-- Claim C3 witness: after account `a1` is stored, adding a different
account that also has ID `a1` (with a non-nil key) fails with the
already-exists error and the stored account is still the first one. -/
theorem add_duplicate_id_witness :
    addAccount mAcct acctA2 =
      (0, some (StoreError.alreadyExists acctA.id), mAcct) ∧
    getAccountByID mAcct acctA.id = some acctA :=
  (add_duplicate_id_rejected m0 acctA acctA2 ordO ordO authZ authZ chalC chalC
    certT certT).1 1 mAcct (by decide) (by decide) (by decide)

/-- Claim C8: for every entity kind, Add with an empty ID fails with the
empty-identifier error regardless of the entity's other fields, and
AddAccount with a non-empty ID but a nil key fails with the
missing-required-field error; the store is unchanged in every case. -/
theorem add_validation_errors (m : MemoryStore) (a : Account) (o : Order)
    (z : Authorization) (ch : Challenge) (ct : Certificate) :
    (a.id = "" → addAccount m a = (0, some (StoreError.emptyIdentifier
      "account must have a non-empty ID to add to MemoryStore"), m)) ∧
    (o.id = "" → addOrder m o = (0, some (StoreError.emptyIdentifier
      "order must have a non-empty ID to add to MemoryStore"), m)) ∧
    (z.id = "" → addAuthorization m z = (0, some (StoreError.emptyIdentifier
      "authz must have a non-empty ID to add to MemoryStore"), m)) ∧
    (ch.id = "" → addChallenge m ch = (0, some (StoreError.emptyIdentifier
      "challenge must have a non-empty ID to add to MemoryStore"), m)) ∧
    (ct.id = "" → addCertificate m ct = (0, some (StoreError.emptyIdentifier
      "cert must have a non-empty ID to add to MemoryStore"), m)) ∧
    (a.id ≠ "" → a.key = none → addAccount m a =
      (0, some (StoreError.missingRequiredField
        "account must not have a nil Key"), m)) := by
  refine ⟨?_, ?_, ?_, ?_, ?_, ?_⟩
  · intro h
    simp [addAccount, h]
  · intro h
    simp [addOrder, h]
  · intro h
    simp [addAuthorization, h]
  · intro h
    simp [addChallenge, h]
  · intro h
    simp [addCertificate, h]
  · intro h1 h2
    simp [addAccount, h1, h2]

/-- Claim C8 witness: one concrete empty-ID entity of each kind is
rejected with the empty-identifier error, and a concrete account with a
non-empty ID but nil key is rejected with the missing-required-field
error, each leaving the store unchanged. -/
theorem add_validation_errors_witness :
    addAccount m0 acctEmptyID = (0, some (StoreError.emptyIdentifier
      "account must have a non-empty ID to add to MemoryStore"), m0) ∧
    addOrder m0 ordEmptyID = (0, some (StoreError.emptyIdentifier
      "order must have a non-empty ID to add to MemoryStore"), m0) ∧
    addAuthorization m0 authzEmptyID = (0, some (StoreError.emptyIdentifier
      "authz must have a non-empty ID to add to MemoryStore"), m0) ∧
    addChallenge m0 chalEmptyID = (0, some (StoreError.emptyIdentifier
      "challenge must have a non-empty ID to add to MemoryStore"), m0) ∧
    addCertificate m0 certEmptyID = (0, some (StoreError.emptyIdentifier
      "cert must have a non-empty ID to add to MemoryStore"), m0) ∧
    addAccount m0 acctNoKey = (0, some (StoreError.missingRequiredField
      "account must not have a nil Key"), m0) := by
  have h := add_validation_errors m0 acctEmptyID ordEmptyID authzEmptyID
    chalEmptyID certEmptyID
  have h' := add_validation_errors m0 acctNoKey ordEmptyID authzEmptyID
    chalEmptyID certEmptyID
  exact ⟨h.1 rfl, h.2.1 rfl, h.2.2.1 rfl, h.2.2.2.1 rfl, h.2.2.2.2.1 rfl,
    h'.2.2.2.2.2 (by decide) rfl⟩

/-- Claim C9: for every entity kind, every successful Add returns the new
total size of that entity's collection — exactly one more than the number
of entities of that kind stored before the call. -/
theorem add_returns_new_size (m : MemoryStore) (a : Account) (o : Order)
    (z : Authorization) (ch : Challenge) (ct : Certificate) :
    (∀ n m', addAccount m a = (n, none, m') →
      n = m.accountsByID.length + 1 ∧ n = m'.accountsByID.length) ∧
    (∀ n m', addOrder m o = (n, none, m') →
      n = m.ordersByID.length + 1 ∧ n = m'.ordersByID.length) ∧
    (∀ n m', addAuthorization m z = (n, none, m') →
      n = m.authorizationsByID.length + 1 ∧ n = m'.authorizationsByID.length) ∧
    (∀ n m', addChallenge m ch = (n, none, m') →
      n = m.challengesByID.length + 1 ∧ n = m'.challengesByID.length) ∧
    (∀ n m', addCertificate m ct = (n, none, m') →
      n = m.certificatesByID.length + 1 ∧ n = m'.certificatesByID.length) := by
  refine ⟨?_, ?_, ?_, ?_, ?_⟩
  · intro n m' h
    obtain ⟨_, _, _, hn, hm⟩ := addAccount_ok h
    subst hm
    exact ⟨hn, by simp [hn, mapInsert_length]⟩
  · intro n m' h
    obtain ⟨_, _, hn, hm⟩ := addOrder_ok h
    subst hm
    exact ⟨hn, by simp [hn, mapInsert_length]⟩
  · intro n m' h
    obtain ⟨_, _, hn, hm⟩ := addAuthorization_ok h
    subst hm
    exact ⟨hn, by simp [hn, mapInsert_length]⟩
  · intro n m' h
    obtain ⟨_, _, hn, hm⟩ := addChallenge_ok h
    subst hm
    exact ⟨hn, by simp [hn, mapInsert_length]⟩
  · intro n m' h
    obtain ⟨_, _, hn, hm⟩ := addCertificate_ok h
    subst hm
    exact ⟨hn, by simp [hn, mapInsert_length]⟩

/-- Claim C9 witness: adding an account to the empty store returns 1, and
adding a second certificate to a one-certificate store returns 2 — each
the previous collection size plus one, and the new total. -/
theorem add_returns_new_size_witness :
    ((1 : Nat) = m0.accountsByID.length + 1 ∧
      (1 : Nat) = mAcct.accountsByID.length) ∧
    ((2 : Nat) = mCert.certificatesByID.length + 1 ∧
      (2 : Nat) = mCert2.certificatesByID.length) :=
  ⟨(add_returns_new_size m0 acctA ordO authZ chalC certT).1 1 mAcct (by decide),
   (add_returns_new_size mCert acctA ordO authZ chalC certU).2.2.2.2 2 mCert2
     (by decide)⟩

/-- Claim C10: for every entity kind, whenever Add returns an error, the
returned count is 0 and the store is left completely unchanged. -/
theorem add_failure_leaves_store_unchanged (m : MemoryStore) (a : Account)
    (o : Order) (z : Authorization) (ch : Challenge) (ct : Certificate) :
    (∀ n e m', addAccount m a = (n, some e, m') → n = 0 ∧ m' = m) ∧
    (∀ n e m', addOrder m o = (n, some e, m') → n = 0 ∧ m' = m) ∧
    (∀ n e m', addAuthorization m z = (n, some e, m') → n = 0 ∧ m' = m) ∧
    (∀ n e m', addChallenge m ch = (n, some e, m') → n = 0 ∧ m' = m) ∧
    (∀ n e m', addCertificate m ct = (n, some e, m') → n = 0 ∧ m' = m) := by
  refine ⟨?_, ?_, ?_, ?_, ?_⟩
  · intro n e m' h
    exact addAccount_err h
  · intro n e m' h
    exact addOrder_err h
  · intro n e m' h
    exact addAuthorization_err h
  · intro n e m' h
    exact addChallenge_err h
  · intro n e m' h
    exact addCertificate_err h

/-- Claim C10 witness: re-adding the certificate already stored under
`t1` fails, returns count 0, and leaves the store exactly as it was. -/
theorem add_failure_leaves_store_unchanged_witness :
    (addCertificate mCert certT).1 = 0 ∧ (addCertificate mCert certT).2.2 = mCert :=
  (add_failure_leaves_store_unchanged mCert acctA ordO authZ chalC certT).2.2.2.2
    (addCertificate mCert certT).1 (StoreError.alreadyExists "t1")
    (addCertificate mCert certT).2.2 (by decide)

end MemStore
